import Mathlib

set_option maxRecDepth 200000

/-!
Shallow embedding of the signal computation and caching engine of
mojila-signal (src/main.py, src/app.py, src/database.py, src/config.py).
Machine floats are idealised as exact rationals; pandas NaN/undefined
entries are modelled with `Option`.
-/

namespace MojilaSignal

/-- Signal labels assigned to bars (`data['Signal']` values in
`RSISignalGenerator.generate_signals`, src/main.py). -/
inductive SignalLabel where
  | hold
  | buy
  | sell
  | strongBuy
  | strongSell
deriving DecidableEq, Repr

/-- Signal strength values (`signal_strength` in src/main.py lines 305-315). -/
inductive Strength where
  | normal
  | strong
deriving DecidableEq, Repr

/-! ## Configuration (src/config.py) -/

/-- `RSI_PERIOD = 14` (src/config.py line 10). -/
def RSI_PERIOD : Int := 14

/-- `OVERSOLD_THRESHOLD = 30` (src/config.py line 11). -/
def OVERSOLD_THRESHOLD : ℚ := 30

/-- `OVERBOUGHT_THRESHOLD = 70` (src/config.py line 12). -/
def OVERBOUGHT_THRESHOLD : ℚ := 70

/-- Modelled from the spec: `config.MACD_FAST_PERIOD` is referenced by
`calculate_macd` (src/main.py line 76) but absent from src/config.py;
the spec's configuration surface fixes macdFast=12. -/
def MACD_FAST_PERIOD : ℚ := 12

/-- Modelled from the spec: `config.MACD_SLOW_PERIOD` is referenced by
`calculate_macd` (src/main.py line 77) but absent from src/config.py;
the spec's configuration surface fixes macdSlow=26. -/
def MACD_SLOW_PERIOD : ℚ := 26

/-- Modelled from the spec: `config.MACD_SIGNAL_PERIOD` is referenced by
`calculate_macd` (src/main.py line 83) but absent from src/config.py;
the spec's configuration surface fixes macdSignal=9. -/
def MACD_SIGNAL_PERIOD : ℚ := 9

/-! ## Constructor defaults (`RSISignalGenerator.__init__`, src/main.py 31-44)

Python `arg or default` substitutes the default for `None` and for any
falsy value, in particular `0` / `0.0`. -/

/-- `self.rsi_period = rsi_period or config.RSI_PERIOD` (src/main.py line 41). -/
def initRsiPeriod (arg : Option Int) : Int :=
  match arg with
  | none => RSI_PERIOD
  | some v => if v = 0 then RSI_PERIOD else v

/-- `self.oversold_threshold = oversold_threshold or config.OVERSOLD_THRESHOLD`
(src/main.py line 42). -/
def initOversold (arg : Option ℚ) : ℚ :=
  match arg with
  | none => OVERSOLD_THRESHOLD
  | some v => if v = 0 then OVERSOLD_THRESHOLD else v

/-- `self.overbought_threshold = overbought_threshold or config.OVERBOUGHT_THRESHOLD`
(src/main.py line 43). -/
def initOverbought (arg : Option ℚ) : ℚ :=
  match arg with
  | none => OVERBOUGHT_THRESHOLD
  | some v => if v = 0 then OVERBOUGHT_THRESHOLD else v

/-! ## RSI pipeline (`calculate_rsi`, src/main.py 46-63) -/

/-- `prices.diff()`: entry 0 is NaN (`none`), entry i is `prices[i] - prices[i-1]`. -/
def diffs : List ℚ → List (Option ℚ)
  | [] => []
  | p :: ps => none :: List.zipWith (fun a b => some (b - a)) (p :: ps) ps

/-- `delta.where(delta > 0, 0)`: keeps positive deltas, replaces everything
else (including the leading NaN, for which `NaN > 0` is false) by 0. -/
def posPart (d : Option ℚ) : ℚ :=
  match d with
  | none => 0
  | some v => if 0 < v then v else 0

/-- `-delta.where(delta < 0, 0)`: magnitude of negative deltas, 0 elsewhere
(including the leading NaN). -/
def negPart (d : Option ℚ) : ℚ :=
  match d with
  | none => 0
  | some v => if v < 0 then -v else 0

/-- The gain series fed to the rolling mean (src/main.py line 57). -/
def gains (prices : List ℚ) : List ℚ := (diffs prices).map posPart

/-- The loss series fed to the rolling mean (src/main.py line 58). -/
def losses (prices : List ℚ) : List ℚ := (diffs prices).map negPart

/-- `xs.rolling(window=w).mean()` with the pandas default
`min_periods = w`: entry i is defined iff at least w observations fit,
i.e. iff `w ≤ i+1`, and is then the mean of entries `i+1-w .. i`. -/
def rollingMean (w : Nat) (xs : List ℚ) : List (Option ℚ) :=
  (List.range xs.length).map fun i =>
    if i + 1 < w then none
    else some (((xs.take (i + 1)).drop (i + 1 - w)).sum / (w : ℚ))

/-- One point of `rsi = 100 - (100 / (1 + gain/loss))` (src/main.py 60-61)
under IEEE semantics: loss 0 and gain 0 gives NaN (undefined); loss 0 and
gain positive gives RS = +inf, so RSI saturates at 100; otherwise the
finite formula applies. -/
def rsiPoint (g? l? : Option ℚ) : Option ℚ :=
  match g?, l? with
  | some g, some l =>
      if l = 0 then (if g = 0 then none else some 100)
      else some (100 - 100 / (1 + g / l))
  | _, _ => none

/-- `calculate_rsi` (src/main.py 46-63): the RSI series aligned with the
input price series, undefined entries as `none`. -/
def rsiList (period : Nat) (prices : List ℚ) : List (Option ℚ) :=
  List.zipWith rsiPoint
    (rollingMean period (gains prices))
    (rollingMean period (losses prices))

/-! ## MACD pipeline (`calculate_macd`, src/main.py 65-92) -/

/-- Recursion for `ewm(span=s).mean()` with the pandas default
`adjust=True`: carries the weighted numerator and the weight sum,
`num' = x + r*num`, `den' = 1 + r*den`, output `num'/den'`,
where `r = 1 - 2/(span+1)`. -/
def ewmGo (r : ℚ) (num den : ℚ) : List ℚ → List ℚ
  | [] => []
  | x :: rest =>
      let num' := x + r * num
      let den' := 1 + r * den
      num' / den' :: ewmGo r num' den' rest

/-- `xs.ewm(span=span).mean()` (pandas default `adjust=True`). -/
def ewmMean (span : ℚ) (xs : List ℚ) : List ℚ :=
  ewmGo (1 - 2 / (span + 1)) 0 0 xs

/-- `macd_line = ema_fast - ema_slow` (src/main.py line 80). -/
def macdLine (prices : List ℚ) : List ℚ :=
  List.zipWith (· - ·) (ewmMean MACD_FAST_PERIOD prices) (ewmMean MACD_SLOW_PERIOD prices)

/-- `signal_line = macd_line.ewm(span=9).mean()` (src/main.py line 83). -/
def macdSignalLine (prices : List ℚ) : List ℚ :=
  ewmMean MACD_SIGNAL_PERIOD (macdLine prices)

/-- `histogram = macd_line - signal_line` (src/main.py line 86). -/
def macdHistogram (prices : List ℚ) : List ℚ :=
  List.zipWith (· - ·) (macdLine prices) (macdSignalLine prices)

/-! ## Signal assignment (src/main.py 249-277)

The vectorised column assignments are applied in source order per index:
HOLD, then BUY on bullish crossover, SELL on bearish crossover,
STRONG_BUY / STRONG_SELL on strong trend with momentum, then BUY / SELL
continuation where the column still reads HOLD. `shift(1)` comparisons
at index 0 involve NaN and are false. -/

/-- The label the assignment sequence leaves at one index, given the
current MACD/signal values `m`, `s` and the previous bar's pair (absent
at index 0). -/
def stepSignal (m s : ℚ) (prev : Option (ℚ × ℚ)) : SignalLabel :=
  let s1 :=
    match prev with
    | some (mp, sp) =>
        if s < m ∧ mp ≤ sp then SignalLabel.buy
        else if m < s ∧ sp ≤ mp then SignalLabel.sell
        else SignalLabel.hold
    | none => SignalLabel.hold
  let s2 :=
    match prev with
    | some (mp, sp) =>
        if s < m ∧ 0 < m ∧ 0 < s ∧ mp - sp < m - s then SignalLabel.strongBuy else s1
    | none => s1
  let s3 :=
    match prev with
    | some (mp, sp) =>
        if m < s ∧ m < 0 ∧ s < 0 ∧ m - s < mp - sp then SignalLabel.strongSell else s2
    | none => s2
  let s4 := if s < m ∧ s3 = SignalLabel.hold then SignalLabel.buy else s3
  if m < s ∧ s4 = SignalLabel.hold then SignalLabel.sell else s4

/-- The full `data['Signal']` column before the calendar override
(src/main.py 249-277). -/
def signalList (prices : List ℚ) : List SignalLabel :=
  let m := macdLine prices
  let s := macdSignalLine prices
  (List.range prices.length).map fun i =>
    stepSignal (m.getD i 0) (s.getD i 0)
      (if i = 0 then none else some (m.getD (i - 1) 0, s.getD (i - 1) 0))

/-! ## Calendar events (`get_calendar_events`, src/main.py 144-193) -/

/-- The flags returned by the calendar lookup: each is true exactly when
the corresponding known date equals tomorrow (today + 1); unknown dates
(fetch failures) degrade to false. Dates are calendar day numbers. -/
def calendarFlags (today : Int) (exDate nextEarnings : Option Int) : Bool × Bool :=
  (decide (exDate = some (today + 1)), decide (nextEarnings = some (today + 1)))

/-- The signal column after the calendar override (src/main.py 279-287):
when either flag is set, only the last entry is overwritten with SELL. -/
def signalListWithCalendar (prices : List ℚ) (exTomorrow earningsTomorrow : Bool) :
    List SignalLabel :=
  let base := signalList prices
  if exTomorrow || earningsTomorrow then
    base.set (base.length - 1) SignalLabel.sell
  else base

/-! ## Signal strength (src/main.py 305-315) -/

/-- Sample variance with the pandas default `ddof=1`, used to translate
the float comparison `abs(x) > std * 0.5` into the equivalent exact
comparison `x^2 > var / 4` (both sides nonnegative, squaring preserves
the strict order). -/
def sampleVar (xs : List ℚ) : ℚ :=
  let n : ℚ := xs.length
  let mu := xs.sum / n
  (xs.map (fun x => (x - mu) ^ 2)).sum / (n - 1)

/-- `signal_strength` (src/main.py 305-315), computed from the
post-calendar-override current signal (read at line 291, after line 287):
STRONG for STRONG_BUY/STRONG_SELL; for BUY/SELL, STRONG when the
histogram magnitude grew versus the previous bar or the MACD-signal gap
exceeds half the standard deviation of the MACD column; else NORMAL.
In the BUY/SELL branch line 311 reads `MACD_Histogram.iloc[-2]`, which
raises IndexError on a one-row frame — that crash is `none`. -/
def signalStrength (prices : List ℚ) (exTomorrow earningsTomorrow : Bool) : Option Strength :=
  let n := prices.length
  let m := macdLine prices
  let s := macdSignalLine prices
  let hist := macdHistogram prices
  let cur := (signalListWithCalendar prices exTomorrow earningsTomorrow).getD (n - 1) SignalLabel.hold
  if cur = SignalLabel.strongBuy ∨ cur = SignalLabel.strongSell then some Strength.strong
  else if cur = SignalLabel.buy ∨ cur = SignalLabel.sell then
    if n < 2 then none
    else if |hist.getD (n - 2) 0| < |hist.getD (n - 1) 0| then some Strength.strong
    else if sampleVar m / 4 < (m.getD (n - 1) 0 - s.getD (n - 1) 0) ^ 2 then some Strength.strong
    else some Strength.normal
  else some Strength.normal

/-! ## Per-symbol analysis (`generate_signals`, src/main.py 223-343) -/

/-- The fields of the returned signal dictionary the claims are about
(presentation-only fields such as rounding and timestamps are omitted). -/
structure SignalRecord where
  symbol : String
  currentPrice : ℚ
  currentRSI : Option ℚ
  currentSignal : SignalLabel
  signalStrength : Strength
deriving DecidableEq, Repr

/-- The market-data capability: `get_stock_data` returns an empty frame
both when the symbol has no data and when the fetch fails after retries,
so a failing symbol is exactly one whose price list is empty. -/
def FetchEnv : Type := String → List ℚ

/-- The calendar capability: per symbol, the (ex-dividend-tomorrow,
earnings-tomorrow) flag pair produced by `get_calendar_events`. -/
def CalendarEnv : Type := String → Bool × Bool

/-- `generate_signals` (src/main.py 223-343): an error dictionary
(`Sum.inl`) for an empty price series, otherwise the assembled record.
The function has no try/except, so an IndexError inside the strength
computation escapes as a raised exception (`Except.error ()`). The
classifier consults only the MACD columns and the calendar flags; the
RSI column is computed and reported but never read by the assignment. -/
def generateSignals (env : FetchEnv) (cal : CalendarEnv) (symbol : String) :
    Except Unit (Sum String SignalRecord) :=
  let prices := env symbol
  if prices.isEmpty then Except.ok (Sum.inl ("No data available for " ++ symbol))
  else
    match signalStrength prices (cal symbol).1 (cal symbol).2 with
    | none => Except.error ()
    | some strength =>
        Except.ok (Sum.inr
          { symbol := symbol
            currentPrice := prices.getD (prices.length - 1) 0
            currentRSI := (rsiList 14 prices).getD (prices.length - 1) none
            currentSignal :=
              (signalListWithCalendar prices (cal symbol).1 (cal symbol).2).getD
                (prices.length - 1) SignalLabel.hold
            signalStrength := strength })

/-- `analyze_multiple_stocks` (src/main.py 345-363): one entry per input
symbol, in order; error dictionaries are appended like records and the
loop itself never stops early, but it has no try/except either, so a
raised exception from `generate_signals` aborts the whole batch. -/
def analyzeMultipleStocks (env : FetchEnv) (cal : CalendarEnv) :
    List String → Except Unit (List (Sum String SignalRecord))
  | [] => Except.ok []
  | s :: rest =>
      match generateSignals env cal s with
      | Except.error e => Except.error e
      | Except.ok r =>
          match analyzeMultipleStocks env cal rest with
          | Except.error e => Except.error e
          | Except.ok rs => Except.ok (r :: rs)

/-! ## Cache store and portfolio endpoint (src/database.py, src/app.py)

The SQLite table has a UNIQUE(symbol, date) constraint, so for a fixed
date the store is a partial map from symbol to record; `get_signal` is
exact-key lookup. -/

/-- The cache store for a fixed date: `get_signal` as a partial map. -/
def Store : Type := String → Option SignalRecord

/-- `SignalDatabase.get_portfolio_signals` (src/database.py 171-200):
walks the input symbols in order, appending each to the cached list
(with its `symbol` field set, line 191) or to the missing list. -/
def getPortfolioSignalsDb (store : Store) : List String → List SignalRecord × List String
  | [] => ([], [])
  | s :: rest =>
      let acc := getPortfolioSignalsDb store rest
      match store s with
      | some r => ({ r with symbol := s } :: acc.1, acc.2)
      | none => (acc.1, s :: acc.2)

/-- The fields of the `/api/portfolio` JSON response the claims are about
(src/app.py 102-109). -/
structure PortfolioResponse where
  stocks : List SignalRecord
  totalCount : Nat
  cachedCount : Nat
  generatedCount : Nat
deriving DecidableEq, Repr

/-- The generation loop of src/app.py 92-96: for each missing symbol,
generate and append only the successful results (`if 'error' not in
result`, line 94) — error dictionaries are dropped; a raised exception
aborts the loop (caught only by the handler's outer try/except, which
turns the whole response into a 500 error). -/
def generateLoop (env : FetchEnv) (cal : CalendarEnv) :
    List String → Except Unit (List SignalRecord)
  | [] => Except.ok []
  | s :: rest =>
      match generateSignals env cal s with
      | Except.error e => Except.error e
      | Except.ok (Sum.inl _) => generateLoop env cal rest
      | Except.ok (Sum.inr r) =>
          match generateLoop env cal rest with
          | Except.error e => Except.error e
          | Except.ok rs => Except.ok (r :: rs)

/-- `get_portfolio_signals` (src/app.py 79-111): partitions via the
store, runs the generation loop for the missing symbols, and returns the
response or a 500 error (`Except.error`) when the loop raised. The
handler contains no `save_signal` call, so the store is returned
unchanged. Line 88 binds `results` to the same list object as
`portfolio_data['cached']`, so the appends of line 96 grow that list
too and line 105's `cached_count = len(portfolio_data['cached'])` equals
the total count (and the marking loop of lines 99-100 retags generated
entries as well; source tags are not modelled). -/
def getPortfolioEndpoint (store : Store) (env : FetchEnv) (cal : CalendarEnv)
    (symbols : List String) : Except Unit PortfolioResponse × Store :=
  let part := getPortfolioSignalsDb store symbols
  ((generateLoop env cal part.2).map fun gen =>
      let results := part.1 ++ gen
      { stocks := results
        totalCount := results.length
        cachedCount := results.length
        generatedCount := part.2.length },
   store)

/-! ## Retention sweep (`delete_old_signals`, src/database.py 202-225)

Record dates are ISO `YYYY-MM-DD` strings compared lexicographically by
SQLite, which coincides with chronological order; they are modelled as
calendar day numbers. -/

/-- A persisted row as far as the retention sweep is concerned. -/
structure StoredSignal where
  symbol : String
  date : Int
deriving DecidableEq, Repr

/-- `delete_old_signals(days_to_keep)` (src/database.py 202-225): executes
`DELETE FROM signals WHERE date < date('now', '-N days')` and returns the
rowcount; the store keeps the complement. -/
def deleteOldSignals (today daysToKeep : Int) (store : List StoredSignal) :
    List StoredSignal × Nat :=
  (store.filter fun r => today - daysToKeep ≤ r.date,
   (store.filter fun r => r.date < today - daysToKeep).length)

/-! ## A closed-form description of the label assignment

`charLabel` restates the net effect of the assignment sequence in
src/main.py 249-277 as a single case split on the order of the MACD line
and the signal line; it is compared with the faithful `stepSignal`. -/

/-- Closed form of the label left by the assignment sequence: determined
entirely by the MACD/signal order at the bar (and the strong-trend
momentum test against the previous bar). -/
def charLabel (m s : ℚ) (prev : Option (ℚ × ℚ)) : SignalLabel :=
  if s < m then
    match prev with
    | some (mp, sp) =>
        if 0 < m ∧ 0 < s ∧ mp - sp < m - s then SignalLabel.strongBuy else SignalLabel.buy
    | none => SignalLabel.buy
  else if m < s then
    match prev with
    | some (mp, sp) =>
        if m < 0 ∧ s < 0 ∧ m - s < mp - sp then SignalLabel.strongSell else SignalLabel.sell
    | none => SignalLabel.sell
  else SignalLabel.hold

/-! ## Concrete price series used as test inputs -/

/-- A strictly falling series of 14 closes: every delta is negative, so
the rolling average gain is 0 and RSI saturates low. -/
def decPrices : List ℚ :=
  [100, 98, 96, 94, 92, 90, 88, 86, 84, 82, 80, 78, 76, 74]

/-- A strictly rising series of 14 closes: every delta is positive, so
the rolling average loss is 0 and RSI saturates at 100. -/
def incPrices : List ℚ :=
  [100, 101, 102, 103, 104, 105, 106, 107, 108, 109, 110, 111, 112, 113]

/-- One sharp drop followed by a steady rise: RSI lands strictly between
20 and 80 while the MACD trend condition is strongly bullish. -/
def mixPrices : List ℚ :=
  [100, 90, 91, 92, 93, 94, 95, 96, 97, 98, 99, 100, 101, 102, 103]

/-- A store with no records. -/
def emptyStore : Store := fun _ => none

/-- A calendar capability reporting no upcoming events. -/
def noCal : CalendarEnv := fun _ => (false, false)

/-- A fetch capability where only AAPL has data. -/
def oneSymbolEnv : FetchEnv := fun s => if s = "AAPL" then decPrices else []

/-- A fetch capability where symbol A fails (empty series) and symbol B
succeeds. -/
def abEnv : FetchEnv := fun s => if s = "B" then decPrices else []

/-- A record used to populate concrete stores in examples. -/
def dummyRecord : SignalRecord :=
  { symbol := "A"
    currentPrice := 0
    currentRSI := none
    currentSignal := SignalLabel.hold
    signalStrength := Strength.normal }

/-- A store holding a record for symbol A only. -/
def hitStore : Store := fun s => if s = "A" then some dummyRecord else none

/-- A fetch capability where every symbol fails (empty series). -/
def emptyEnv : FetchEnv := fun _ => []

/-- A fetch capability returning a single-bar price series. -/
def oneBarEnv : FetchEnv := fun _ => [5]

/-- A calendar capability reporting an ex-dividend date tomorrow for
every symbol. -/
def flagCal : CalendarEnv := fun _ => (true, false)

/-- The endpoint response for a fully cached one-symbol portfolio. -/
def cachedOnlyResponse : PortfolioResponse :=
  { stocks := [dummyRecord], totalCount := 1, cachedCount := 1, generatedCount := 0 }

/-- The endpoint response when the only requested symbol is uncached and
unfetchable: the symbol is silently absent. -/
def droppedResponse : PortfolioResponse :=
  { stocks := [], totalCount := 0, cachedCount := 0, generatedCount := 1 }

/-! ## Structural lemmas -/

theorem diffs_length (prices : List ℚ) : (diffs prices).length = prices.length := by
  cases prices with
  | nil => rfl
  | cons p ps => simp [diffs]

theorem gains_length (prices : List ℚ) : (gains prices).length = prices.length := by
  simp [gains, diffs_length]

theorem losses_length (prices : List ℚ) : (losses prices).length = prices.length := by
  simp [losses, diffs_length]

theorem rollingMean_length (w : Nat) (xs : List ℚ) :
    (rollingMean w xs).length = xs.length := by
  simp [rollingMean]

theorem rsiList_length (period : Nat) (prices : List ℚ) :
    (rsiList period prices).length = prices.length := by
  simp [rsiList, rollingMean_length, gains_length, losses_length]

theorem signalList_length (prices : List ℚ) :
    (signalList prices).length = prices.length := by
  simp [signalList]

theorem signalListWithCalendar_length (prices : List ℚ) (ex earn : Bool) :
    (signalListWithCalendar prices ex earn).length = prices.length := by
  unfold signalListWithCalendar
  split
  · simp [signalList_length]
  · exact signalList_length prices

theorem rollingMean_get (w : Nat) (xs : List ℚ) (i : Nat) (hi : i < xs.length) :
    (rollingMean w xs).get? i =
      some (if i + 1 < w then none
        else some (((xs.take (i + 1)).drop (i + 1 - w)).sum / (w : ℚ))) := by
  unfold rollingMean
  rw [List.get?_map, List.get?_range hi]
  rfl

/-- `get_portfolio_signals` partitions the requested list: the cached
records carry exactly the symbols whose lookup hits, the missing list
exactly the symbols whose lookup misses, each in input order. -/
theorem dbPartition (store : Store) (syms : List String) :
    (getPortfolioSignalsDb store syms).1.map (fun r => r.symbol) =
        syms.filter (fun t => (store t).isSome) ∧
    (getPortfolioSignalsDb store syms).2 =
        syms.filter (fun t => (store t).isNone) := by
  induction syms with
  | nil => exact ⟨rfl, rfl⟩
  | cons s rest ih =>
      cases h : store s with
      | none => simp [getPortfolioSignalsDb, h, ih.1, ih.2, List.filter_cons]
      | some r => simp [getPortfolioSignalsDb, h, ih.1, ih.2, List.filter_cons]

/-! ## Claim theorems -/

/-- C10: `RSISignalGenerator.__init__` substitutes the config defaults
(14, 30, 70) for a `None` argument and also for a zero argument, while
any non-zero argument is used as given. -/
theorem C10_init_defaults :
    (∀ v : Int, v ≠ 0 → initRsiPeriod (some v) = v) ∧
    (∀ q : ℚ, q ≠ 0 → initOversold (some q) = q) ∧
    (∀ q : ℚ, q ≠ 0 → initOverbought (some q) = q) ∧
    initRsiPeriod none = 14 ∧ initRsiPeriod (some 0) = 14 ∧
    initOversold none = 30 ∧ initOversold (some 0) = 30 ∧
    initOverbought none = 70 ∧ initOverbought (some 0) = 70 := by
  refine ⟨?_, ?_, ?_, rfl, by simp [initRsiPeriod, RSI_PERIOD], rfl,
    by simp [initOversold, OVERSOLD_THRESHOLD], rfl,
    by simp [initOverbought, OVERBOUGHT_THRESHOLD]⟩
  · intro v hv; simp [initRsiPeriod, hv]
  · intro q hq; simp [initOversold, hq]
  · intro q hq; simp [initOverbought, hq]

/-- Witness for C10 at the concrete non-zero arguments 7, 25, 75. -/
theorem C10_init_defaults_witness :
    initRsiPeriod (some 7) = 7 ∧ initOversold (some 25) = 25 ∧
      initOverbought (some 75) = 75 :=
  ⟨C10_init_defaults.1 7 (by decide),
   C10_init_defaults.2.1 25 (by norm_num),
   C10_init_defaults.2.2.1 75 (by norm_num)⟩

/-- C9: `delete_old_signals(days)` deletes exactly the records strictly
older than `days` before the current date, returning the deleted count;
on a store with one record dated today and one dated 45 days ago, with
30 days kept, it deletes only the old record and returns 1. -/
theorem C9_delete_old_signals :
    (∀ (today days : Int) (store : List StoredSignal),
      (∀ r : StoredSignal,
        r ∈ (deleteOldSignals today days store).1 ↔
          r ∈ store ∧ ¬ r.date < today - days) ∧
      (deleteOldSignals today days store).2 +
        (deleteOldSignals today days store).1.length = store.length) ∧
    (∀ d : Int,
      deleteOldSignals d 30 [⟨"KEEP", d⟩, ⟨"OLD", d - 45⟩] = ([⟨"KEEP", d⟩], 1)) := by
  constructor
  · intro today days store
    constructor
    · intro r
      simp [deleteOldSignals, List.mem_filter, not_lt]
    · induction store with
      | nil => rfl
      | cons r rest ih =>
          by_cases h : r.date < today - days
          · have h' : ¬ today - days ≤ r.date := not_le.mpr h
            simp only [deleteOldSignals, List.filter_cons] at ih ⊢
            simp [h, h', Nat.add_comm, Nat.add_left_comm] at ih ⊢
            omega
          · have h' : today - days ≤ r.date := not_lt.mp h
            simp only [deleteOldSignals, List.filter_cons] at ih ⊢
            simp [h, h'] at ih ⊢
            omega
  · intro d
    have h1 : d - 30 ≤ d := by omega
    have h2 : ¬ d - 30 ≤ d - 45 := by omega
    have h3 : d - 45 < d - 30 := by omega
    have h4 : ¬ d < d - 30 := by omega
    simp [deleteOldSignals, List.filter_cons, h1, h2, h3, h4]
    omega

/-- C6: `get_portfolio_signals` partitions the requested symbols into
cached and missing with no omission, no duplication beyond the input, no
symbol on both sides, and input order preserved within each partition. -/
theorem C6_cache_partition (store : Store) (syms : List String) :
    List.Perm
      ((getPortfolioSignalsDb store syms).1.map (fun r => r.symbol) ++
        (getPortfolioSignalsDb store syms).2) syms ∧
    (∀ t, t ∈ (getPortfolioSignalsDb store syms).1.map (fun r => r.symbol) →
      t ∉ (getPortfolioSignalsDb store syms).2) ∧
    List.Sublist ((getPortfolioSignalsDb store syms).1.map (fun r => r.symbol)) syms ∧
    List.Sublist ((getPortfolioSignalsDb store syms).2) syms := by
  obtain ⟨h1, h2⟩ := dbPartition store syms
  rw [h1, h2]
  refine ⟨?_, ?_, List.filter_sublist _, List.filter_sublist _⟩
  · have hperm := List.filter_append_perm (fun t => (store t).isSome) syms
    have hfun : (fun t => !(store t).isSome) = (fun t => (store t).isNone) := by
      funext t
      cases store t <;> rfl
    rwa [hfun] at hperm
  · intro t ht hm
    rw [List.mem_filter] at ht hm
    cases hst : store t with
    | none => rw [hst] at ht; simp at ht
    | some r => rw [hst] at hm; simp at hm

/-- Witness for C6 at a concrete store and symbol list: symbol A is
cached and therefore not among the missing symbols. -/
theorem C6_cache_partition_witness :
    "A" ∉ (getPortfolioSignalsDb hitStore ["A", "B"]).2 ∧
    List.Perm
      ((getPortfolioSignalsDb hitStore ["A", "B"]).1.map (fun r => r.symbol) ++
        (getPortfolioSignalsDb hitStore ["A", "B"]).2) ["A", "B"] :=
  ⟨(C6_cache_partition hitStore ["A", "B"]).2.1 "A"
      (by simp [getPortfolioSignalsDb, hitStore, dummyRecord]),
   (C6_cache_partition hitStore ["A", "B"]).1⟩

/-- The sequential column assignments of src/main.py 249-277 collapse to
a single case split on the order of MACD and its signal line. -/
theorem stepSignal_eq_charLabel (m s : ℚ) (prev : Option (ℚ × ℚ)) :
    stepSignal m s prev = charLabel m s prev := by
  cases prev with
  | none =>
      rcases lt_trichotomy s m with h | h | h
      · simp [stepSignal, charLabel, h, asymm h]
      · simp [stepSignal, charLabel, h, lt_irrefl]
      · simp [stepSignal, charLabel, h, asymm h]
  | some pr =>
      obtain ⟨mp, sp⟩ := pr
      rcases lt_trichotomy s m with h | h | h
      · by_cases hb : 0 < m ∧ 0 < s ∧ mp - sp < m - s
        · simp [stepSignal, charLabel, h, asymm h, hb]
        · by_cases hc : mp ≤ sp <;>
            simp [stepSignal, charLabel, h, asymm h, hb, hc]
      · simp [stepSignal, charLabel, h, lt_irrefl]
      · by_cases hb : m < 0 ∧ s < 0 ∧ m - s < mp - sp
        · simp [stepSignal, charLabel, h, asymm h, hb]
        · by_cases hc : sp ≤ mp <;>
            simp [stepSignal, charLabel, h, asymm h, hb, hc]

/-- C1 counterexample: on a strictly falling 14-bar series the last bar
has a defined RSI of 0 ≤ oversoldThreshold = 30, yet with no calendar
flags the classifier does not assign BUY (the MACD rules assign a sell
label), refuting "RSI ≤ 30 → BUY". -/
theorem C1_counterexample :
    (rsiList 14 decPrices).get? 13 = some (some 0) ∧
    ((0 : ℚ) ≤ 30) ∧
    (signalListWithCalendar decPrices false false).get? 13 ≠
      some SignalLabel.buy := by
  refine ⟨by with_unfolding_all decide, by norm_num, by with_unfolding_all decide⟩

/-- C1 amended: the label of every evaluated bar is determined by the
MACD line and its signal line alone — BUY/STRONG_BUY when MACD is above
the signal line, SELL/STRONG_SELL when below, HOLD when equal — and the
RSI value plays no part in the assignment. -/
theorem C1_label_from_macd (prices : List ℚ) (i : Nat) (hi : i < prices.length) :
    (signalList prices).get? i =
      some (charLabel ((macdLine prices).getD i 0) ((macdSignalLine prices).getD i 0)
        (if i = 0 then none
         else some ((macdLine prices).getD (i - 1) 0,
           (macdSignalLine prices).getD (i - 1) 0))) := by
  simp only [signalList]
  rw [List.get?_map, List.get?_range hi]
  simp [stepSignal_eq_charLabel]

/-- Witness for C1's amended statement at bar 13 of the falling series. -/
theorem C1_label_from_macd_witness :
    (signalList decPrices).get? 13 =
      some (charLabel ((macdLine decPrices).getD 13 0) ((macdSignalLine decPrices).getD 13 0)
        (if 13 = 0 then none
         else some ((macdLine decPrices).getD 12 0,
           (macdSignalLine decPrices).getD 12 0))) :=
  C1_label_from_macd decPrices 13 (by decide)

/-- C4 counterexample: on a drop-then-rally series the last bar's RSI is
1300/23 ≈ 56.5, strictly between strongBuyThreshold = 20 and
strongSellThreshold = 80, yet the reported strength is STRONG — the
strength comes from the MACD conditions, not from the RSI thresholds. -/
theorem C4_counterexample :
    (rsiList 14 mixPrices).get? 14 = some (some (1300 / 23)) ∧
    ¬ (1300 / 23 : ℚ) ≤ 20 ∧ ¬ (80 : ℚ) ≤ 1300 / 23 ∧
    signalStrength mixPrices false false = some Strength.strong := by
  refine ⟨by with_unfolding_all decide, by norm_num, by norm_num,
    by with_unfolding_all decide⟩

/-- C4 amended: the strength is STRONG exactly when the current label is
STRONG_BUY/STRONG_SELL, or it is BUY/SELL and either the histogram
magnitude grew versus the previous bar or the MACD-signal gap exceeds
half the standard deviation of the MACD series; the RSI thresholds 20/80
are not consulted. -/
theorem C4_strength_from_macd (prices : List ℚ) (ex earn : Bool)
    (h2 : 2 ≤ prices.length) :
    (signalStrength prices ex earn = some Strength.strong ↔
      ((signalListWithCalendar prices ex earn).getD (prices.length - 1) SignalLabel.hold
          = SignalLabel.strongBuy ∨
        (signalListWithCalendar prices ex earn).getD (prices.length - 1) SignalLabel.hold
          = SignalLabel.strongSell) ∨
      (((signalListWithCalendar prices ex earn).getD (prices.length - 1) SignalLabel.hold
          = SignalLabel.buy ∨
        (signalListWithCalendar prices ex earn).getD (prices.length - 1) SignalLabel.hold
          = SignalLabel.sell) ∧
        (|(macdHistogram prices).getD (prices.length - 2) 0| <
            |(macdHistogram prices).getD (prices.length - 1) 0| ∨
          sampleVar (macdLine prices) / 4 <
            ((macdLine prices).getD (prices.length - 1) 0 -
              (macdSignalLine prices).getD (prices.length - 1) 0) ^ 2))) := by
  have hn : ¬ prices.length < 2 := by omega
  simp only [signalStrength]
  simp only [hn, if_false]
  split_ifs <;> simp_all

/-- Witness for C4's amended statement at the drop-then-rally series. -/
theorem C4_strength_from_macd_witness :
    (signalStrength mixPrices false false = some Strength.strong ↔
      ((signalListWithCalendar mixPrices false false).getD (mixPrices.length - 1)
          SignalLabel.hold = SignalLabel.strongBuy ∨
        (signalListWithCalendar mixPrices false false).getD (mixPrices.length - 1)
          SignalLabel.hold = SignalLabel.strongSell) ∨
      (((signalListWithCalendar mixPrices false false).getD (mixPrices.length - 1)
          SignalLabel.hold = SignalLabel.buy ∨
        (signalListWithCalendar mixPrices false false).getD (mixPrices.length - 1)
          SignalLabel.hold = SignalLabel.sell) ∧
        (|(macdHistogram mixPrices).getD (mixPrices.length - 2) 0| <
            |(macdHistogram mixPrices).getD (mixPrices.length - 1) 0| ∨
          sampleVar (macdLine mixPrices) / 4 <
            ((macdLine mixPrices).getD (mixPrices.length - 1) 0 -
              (macdSignalLine mixPrices).getD (mixPrices.length - 1) 0) ^ 2))) :=
  C4_strength_from_macd mixPrices false false (by decide)

/-- C5: when the calendar lookup reports an ex-dividend or earnings date
exactly one day ahead, the most recent bar's label — and only that one —
is forced to SELL; every earlier bar keeps its label. -/
theorem C5_calendar_override (prices : List ℚ) (today : Int)
    (exDate nextEarnings : Option Int)
    (hflag : exDate = some (today + 1) ∨ nextEarnings = some (today + 1))
    (hne : prices ≠ []) :
    ((signalListWithCalendar prices (calendarFlags today exDate nextEarnings).1
        (calendarFlags today exDate nextEarnings).2).get? (prices.length - 1) =
      some SignalLabel.sell) ∧
    (∀ i, i < prices.length - 1 →
      (signalListWithCalendar prices (calendarFlags today exDate nextEarnings).1
          (calendarFlags today exDate nextEarnings).2).get? i =
        (signalList prices).get? i) := by
  have hor : ((calendarFlags today exDate nextEarnings).1 ||
      (calendarFlags today exDate nextEarnings).2) = true := by
    rcases hflag with h | h <;> simp [calendarFlags, h]
  have hpos : 0 < prices.length := List.length_pos.mpr hne
  constructor
  · simp only [signalListWithCalendar, hor, if_true]
    rw [signalList_length]
    exact List.get?_set_eq_of_lt _ (by rw [signalList_length]; omega)
  · intro i hi
    simp only [signalListWithCalendar, hor, if_true]
    exact List.get?_set_ne _ _ (by rw [signalList_length]; omega)

/-- Witness for C5 on a two-bar series with an ex-dividend date tomorrow. -/
theorem C5_calendar_override_witness :
    ((signalListWithCalendar [(1 : ℚ), 2] (calendarFlags 0 (some 1) none).1
        (calendarFlags 0 (some 1) none).2).get? 1 = some SignalLabel.sell) ∧
    ((signalListWithCalendar [(1 : ℚ), 2] (calendarFlags 0 (some 1) none).1
        (calendarFlags 0 (some 1) none).2).get? 0 = (signalList [(1 : ℚ), 2]).get? 0) :=
  ⟨(C5_calendar_override [(1 : ℚ), 2] 0 (some 1) none (Or.inl rfl) (by simp)).1,
   (C5_calendar_override [(1 : ℚ), 2] 0 (some 1) none (Or.inl rfl) (by simp)).2 0
     (by decide)⟩

theorem posPart_nonneg (d : Option ℚ) : 0 ≤ posPart d := by
  cases d with
  | none => exact le_refl (0 : ℚ)
  | some v =>
      by_cases h : 0 < v
      · simp only [posPart, if_pos h]
        exact le_of_lt h
      · simp only [posPart, if_neg h]
        exact le_refl (0 : ℚ)

theorem negPart_nonneg (d : Option ℚ) : 0 ≤ negPart d := by
  cases d with
  | none => exact le_refl (0 : ℚ)
  | some v =>
      by_cases h : v < 0
      · simp only [negPart, if_pos h]
        exact neg_nonneg.mpr (le_of_lt h)
      · simp only [negPart, if_neg h]
        exact le_refl (0 : ℚ)

theorem gains_nonneg {prices : List ℚ} {x : ℚ} (hx : x ∈ gains prices) : 0 ≤ x := by
  obtain ⟨d, _, rfl⟩ := List.mem_map.mp hx
  exact posPart_nonneg d

theorem losses_nonneg {prices : List ℚ} {x : ℚ} (hx : x ∈ losses prices) : 0 ≤ x := by
  obtain ⟨d, _, rfl⟩ := List.mem_map.mp hx
  exact negPart_nonneg d

/-- A defined rolling mean of a nonnegative series is nonnegative. -/
theorem rollingMean_nonneg {w : Nat} {xs : List ℚ} {i : Nat} {v : ℚ}
    (hxs : ∀ x ∈ xs, 0 ≤ x)
    (h : (rollingMean w xs).get? i = some (some v)) : 0 ≤ v := by
  have hi : i < xs.length := by
    by_contra hlen
    rw [List.get?_eq_none.mpr (by rw [rollingMean_length]; omega)] at h
    exact Option.noConfusion h
  rw [rollingMean_get w xs i hi] at h
  by_cases hc : i + 1 < w
  · rw [if_pos hc] at h
    exact Option.noConfusion (Option.some.inj h)
  · rw [if_neg hc] at h
    have hv := Option.some.inj (Option.some.inj h)
    subst hv
    apply div_nonneg
    · exact List.sum_nonneg fun x hx =>
        hxs x (List.mem_of_mem_take (List.mem_of_mem_drop hx))
    · exact Nat.cast_nonneg w

/-- C7: every defined RSI value lies in [0, 100]; when the rolling
average loss is zero and the average gain positive, RSI saturates at
exactly 100. -/
theorem C7_rsi_bounded :
    (∀ (period : Nat) (prices : List ℚ) (i : Nat) (r : ℚ),
      (rsiList period prices).get? i = some (some r) → 0 ≤ r ∧ r ≤ 100) ∧
    (∀ (period : Nat) (prices : List ℚ) (i : Nat) (g : ℚ),
      (rollingMean period (gains prices)).get? i = some (some g) → 0 < g →
      (rollingMean period (losses prices)).get? i = some (some 0) →
      (rsiList period prices).get? i = some (some 100)) := by
  constructor
  · intro period prices i r h
    unfold rsiList at h
    obtain ⟨g?, l?, hg, hl, hf⟩ := (List.get?_zipWith_eq_some _ _ _ _ _).mp h
    cases g? with
    | none => exact Option.noConfusion hf
    | some g =>
        cases l? with
        | none => exact Option.noConfusion hf
        | some l =>
            have hg0 : 0 ≤ g := rollingMean_nonneg (fun x hx => gains_nonneg hx) hg
            have hl0 : 0 ≤ l := rollingMean_nonneg (fun x hx => losses_nonneg hx) hl
            simp only [rsiPoint] at hf
            by_cases hlz : l = 0
            · rw [if_pos hlz] at hf
              by_cases hgz : g = 0
              · rw [if_pos hgz] at hf
                exact Option.noConfusion hf
              · rw [if_neg hgz] at hf
                have := Option.some.inj hf
                constructor <;> rw [← this] <;> norm_num
            · rw [if_neg hlz] at hf
              have hr := Option.some.inj hf
              have hlpos : 0 < l := lt_of_le_of_ne hl0 (Ne.symm hlz)
              have hx : 0 ≤ g / l := div_nonneg hg0 hl0
              have hle : 100 / (1 + g / l) ≤ 100 := by
                apply div_le_self <;> linarith
              have hpos : 0 < 100 / (1 + g / l) := by
                apply div_pos <;> linarith
              constructor <;> rw [← hr] <;> linarith
  · intro period prices i g hg hgpos hl
    unfold rsiList
    rw [List.get?_zipWith_eq_some]
    refine ⟨some g, some 0, hg, hl, ?_⟩
    simp [rsiPoint, ne_of_gt hgpos]

/-- Witness for C7: the falling series has RSI 0 (within bounds) and the
rising series saturates at 100 through the zero-loss branch. -/
theorem C7_rsi_bounded_witness :
    ((0 : ℚ) ≤ 0 ∧ (0 : ℚ) ≤ 100) ∧
    (rsiList 14 incPrices).get? 13 = some (some 100) :=
  ⟨C7_rsi_bounded.1 14 decPrices 13 0 (by with_unfolding_all decide),
   C7_rsi_bounded.2 14 incPrices 13 (13 / 14) (by with_unfolding_all decide)
     (by norm_num) (by with_unfolding_all decide)⟩

/-- C8 counterexample: on a rising series of exactly rsiPeriod = 14
closes the RSI is already defined at the last index 13 — the undefined
prefix has length rsiPeriod − 1 = 13, not rsiPeriod — refuting
"undefined for the first rsiPeriod entries". -/
theorem C8_counterexample :
    incPrices.length = 14 ∧ (rsiList 14 incPrices).get? 13 = some (some 100) := by
  refine ⟨by decide, by with_unfolding_all decide⟩

/-- C8 amended: the RSI output is aligned one-to-one with the input; the
first rsiPeriod − 1 entries are undefined, and a series shorter than
rsiPeriod has no defined entry at all. -/
theorem C8_rsi_alignment (period : Nat) (prices : List ℚ) :
    (rsiList period prices).length = prices.length ∧
    (∀ i, i + 1 < period → i < prices.length →
      (rsiList period prices).get? i = some none) ∧
    (prices.length < period → ∀ i, i < prices.length →
      (rsiList period prices).get? i = some none) := by
  have hmain : ∀ i, i + 1 < period → i < prices.length →
      (rsiList period prices).get? i = some none := by
    intro i hip hil
    unfold rsiList
    rw [List.get?_zipWith']
    rw [rollingMean_get _ _ _ (by rw [gains_length]; exact hil), if_pos hip]
    rw [rollingMean_get _ _ _ (by rw [losses_length]; exact hil), if_pos hip]
    rfl
  exact ⟨rsiList_length period prices, hmain,
    fun hlen i hil => hmain i (by omega) hil⟩

/-- Witness for C8's amended statement on a 3-close series with
period 14. -/
theorem C8_rsi_alignment_witness :
    (rsiList 14 [(1 : ℚ), 2, 3]).length = 3 ∧
    (rsiList 14 [(1 : ℚ), 2, 3]).get? 0 = some none ∧
    (rsiList 14 [(1 : ℚ), 2, 3]).get? 2 = some none :=
  ⟨(C8_rsi_alignment 14 [(1 : ℚ), 2, 3]).1,
   (C8_rsi_alignment 14 [(1 : ℚ), 2, 3]).2.1 0 (by decide) (by decide),
   (C8_rsi_alignment 14 [(1 : ℚ), 2, 3]).2.2 (by decide) 2 (by decide)⟩

/-- C2 counterexample: with an empty store and one fetchable symbol,
the first call already reports cachedCount = totalCount = 1 although
nothing was persisted: the store still misses AAPL afterwards, and the
second call reports generatedCount = 1 because it has to generate the
record again — refuting "each freshly generated record is persisted to
the cache store before the merged output is returned". -/
theorem C2_counterexample :
    ((getPortfolioEndpoint emptyStore oneSymbolEnv noCal ["AAPL"]).2 "AAPL" = none) ∧
    (((getPortfolioEndpoint emptyStore oneSymbolEnv noCal ["AAPL"]).1.toOption.map
        (fun resp => (resp.cachedCount, resp.totalCount, resp.generatedCount))) =
      some (1, 1, 1)) ∧
    (((getPortfolioEndpoint
          (getPortfolioEndpoint emptyStore oneSymbolEnv noCal ["AAPL"]).2
          oneSymbolEnv noCal ["AAPL"]).1.toOption.map
        (fun resp => (resp.cachedCount, resp.totalCount, resp.generatedCount))) =
      some (1, 1, 1)) := by
  refine ⟨rfl, by with_unfolding_all decide, by with_unfolding_all decide⟩

/-- C2 amended: the handler leaves the store untouched (no save call),
and — generation being deterministic — a second call over the unchanged
store returns exactly the same response; every successful response
reports cachedCount equal to totalCount (the `results` list aliases the
cached list, src/app.py 88/96/105), while generatedCount counts the
symbols that missed the cache and are regenerated on every call. -/
theorem C2_analyze_no_persistence (store : Store) (env : FetchEnv)
    (cal : CalendarEnv) (syms : List String) :
    (getPortfolioEndpoint store env cal syms).2 = store ∧
    getPortfolioEndpoint (getPortfolioEndpoint store env cal syms).2 env cal syms =
      getPortfolioEndpoint store env cal syms ∧
    (∀ resp, (getPortfolioEndpoint store env cal syms).1 = Except.ok resp →
      resp.cachedCount = resp.totalCount ∧
      resp.generatedCount = (getPortfolioSignalsDb store syms).2.length) := by
  refine ⟨rfl, rfl, ?_⟩
  intro resp h
  simp only [getPortfolioEndpoint] at h
  cases hgl : generateLoop env cal (getPortfolioSignalsDb store syms).2 with
  | error e =>
      rw [hgl] at h
      simp only [Except.map] at h
      exact Except.noConfusion h
  | ok gen =>
      rw [hgl] at h
      simp only [Except.map] at h
      have hr := Except.ok.inj h
      rw [← hr]
      exact ⟨rfl, rfl⟩

/-- Witness for C2's amended statement: a fully cached one-symbol
portfolio, where the response reports 1 cached of 1 total and 0
regenerated. -/
theorem C2_analyze_no_persistence_witness :
    (getPortfolioEndpoint hitStore emptyEnv noCal ["A"]).2 = hitStore ∧
    (cachedOnlyResponse.cachedCount = cachedOnlyResponse.totalCount) ∧
    (cachedOnlyResponse.generatedCount = (getPortfolioSignalsDb hitStore ["A"]).2.length) :=
  ⟨(C2_analyze_no_persistence hitStore emptyEnv noCal ["A"]).1,
   ((C2_analyze_no_persistence hitStore emptyEnv noCal ["A"]).2.2
     cachedOnlyResponse (by with_unfolding_all rfl)).1,
   ((C2_analyze_no_persistence hitStore emptyEnv noCal ["A"]).2.2
     cachedOnlyResponse (by with_unfolding_all rfl)).2⟩

/-- A fetch failure (empty series) always produces the handled error
dictionary, never a raised exception. -/
theorem generateSignals_empty {env : FetchEnv} {cal : CalendarEnv} {s : String}
    (h : env s = []) :
    generateSignals env cal s = Except.ok (Sum.inl ("No data available for " ++ s)) := by
  simp [generateSignals, h]

/-- A successfully generated record carries its own symbol. -/
theorem generateSignals_inr_symbol {env : FetchEnv} {cal : CalendarEnv} {s : String}
    {r : SignalRecord} (h : generateSignals env cal s = Except.ok (Sum.inr r)) :
    r.symbol = s := by
  by_cases he : (env s).isEmpty = true
  · rw [generateSignals] at h
    simp only [he, if_true] at h
    exact Sum.noConfusion (Except.ok.inj h)
  · rw [generateSignals] at h
    simp only [he, if_false] at h
    cases hst : signalStrength (env s) (cal s).1 (cal s).2 with
    | none =>
        rw [hst] at h
        exact Except.noConfusion h
    | some st =>
        rw [hst] at h
        rw [← Sum.inr.inj (Except.ok.inj h)]

/-- Every record produced by the endpoint's generation loop comes from a
successful per-symbol generation over the loop's input. -/
theorem generateLoop_ok_mem {env : FetchEnv} {cal : CalendarEnv} :
    ∀ {syms : List String} {gen : List SignalRecord} {r : SignalRecord},
      generateLoop env cal syms = Except.ok gen → r ∈ gen →
      ∃ t, t ∈ syms ∧ generateSignals env cal t = Except.ok (Sum.inr r) := by
  intro syms
  induction syms with
  | nil =>
      intro gen r h hr
      rw [generateLoop] at h
      rw [← Except.ok.inj h] at hr
      exact absurd hr (List.not_mem_nil r)
  | cons s rest ih =>
      intro gen r h hr
      rw [generateLoop] at h
      cases hg : generateSignals env cal s with
      | error e =>
          rw [hg] at h
          exact Except.noConfusion h
      | ok v =>
          cases v with
          | inl msg =>
              rw [hg] at h
              obtain ⟨t, ht, hgen⟩ := ih h hr
              exact ⟨t, List.mem_cons_of_mem s ht, hgen⟩
          | inr rec =>
              rw [hg] at h
              cases hrest : generateLoop env cal rest with
              | error e =>
                  rw [hrest] at h
                  exact Except.noConfusion h
              | ok rs =>
                  rw [hrest] at h
                  rw [← Except.ok.inj h] at hr
                  rcases List.mem_cons.mp hr with hre | hr2
                  · exact ⟨s, List.mem_cons_self s rest, by rw [← hre] at hg; exact hg⟩
                  · obtain ⟨t, ht, hgen⟩ := ih hrest hr2
                    exact ⟨t, List.mem_cons_of_mem s ht, hgen⟩

/-- C3 counterexample: with symbol A failing to fetch and symbol B
succeeding, the portfolio endpoint answers successfully but its stocks
list contains only B's record — no error entry for A appears in the
batch response. -/
theorem C3_counterexample :
    ((getPortfolioEndpoint emptyStore abEnv noCal ["A", "B"]).1.toOption.map
        (fun resp => (resp.stocks.map (fun r => r.symbol), resp.totalCount))) =
      some (["B"], 1) := by
  with_unfolding_all decide

/-- C3 amended: a fetch failure produces an explicit per-symbol error
entry and the batch continues in order; but generate_signals has no
per-symbol exception handling, so a strength-computation IndexError
(a one-bar series whose post-override label is BUY/SELL, src/main.py
line 311) aborts the whole batch; and the portfolio endpoint drops
error entries, so an uncached, unfetchable symbol appears nowhere in
the response. -/
theorem C3_batch_error_handling (env : FetchEnv) (cal : CalendarEnv)
    (syms : List String) :
    (∀ s, env s = [] →
      generateSignals env cal s = Except.ok (Sum.inl ("No data available for " ++ s))) ∧
    (∀ s r, generateSignals env cal s = Except.ok (Sum.inr r) → r.symbol = s) ∧
    (∀ out, analyzeMultipleStocks env cal syms = Except.ok out →
      out.length = syms.length ∧
      ∀ i s, syms.get? i = some s →
        ∃ e, generateSignals env cal s = Except.ok e ∧ out.get? i = some e) ∧
    (∀ s, s ∈ syms → generateSignals env cal s = Except.error () →
      analyzeMultipleStocks env cal syms = Except.error ()) ∧
    (generateSignals oneBarEnv flagCal "C" = Except.error ()) ∧
    (∀ (store : Store) (s : String) (resp : PortfolioResponse),
      store s = none → env s = [] →
      (getPortfolioEndpoint store env cal syms).1 = Except.ok resp →
      s ∉ resp.stocks.map (fun r => r.symbol)) := by
  refine ⟨fun s h => generateSignals_empty h,
    fun s r h => generateSignals_inr_symbol h, ?_, ?_,
    by with_unfolding_all rfl, ?_⟩
  · induction syms with
    | nil =>
        intro out h
        rw [analyzeMultipleStocks] at h
        refine ⟨?_, ?_⟩
        · rw [← Except.ok.inj h]
          rfl
        intro i s hi
        exact absurd hi (by simp)
    | cons s rest ih =>
        intro out h
        rw [analyzeMultipleStocks] at h
        cases hg : generateSignals env cal s with
        | error e =>
            rw [hg] at h
            exact Except.noConfusion h
        | ok v =>
            rw [hg] at h
            cases hrest : analyzeMultipleStocks env cal rest with
            | error e =>
                rw [hrest] at h
                exact Except.noConfusion h
            | ok rs =>
                rw [hrest] at h
                rw [← Except.ok.inj h]
                obtain ⟨hlen, hidx⟩ := ih rs hrest
                refine ⟨by simp [hlen], ?_⟩
                intro i t hi
                cases i with
                | zero =>
                    rw [Option.some.inj hi] at hg
                    exact ⟨v, hg, rfl⟩
                | succ j => exact hidx j t hi
  · intro s hs herr
    induction syms with
    | nil => exact absurd hs (List.not_mem_nil s)
    | cons t rest ih =>
        rw [analyzeMultipleStocks]
        rcases List.mem_cons.mp hs with hst | hrest
        · rw [hst] at herr
          rw [herr]
        · cases hg : generateSignals env cal t with
          | error e => rfl
          | ok v => rw [ih hrest]
  · intro store s resp hstore henv hresp hmem
    simp only [getPortfolioEndpoint] at hresp
    cases hgl : generateLoop env cal (getPortfolioSignalsDb store syms).2 with
    | error e =>
        rw [hgl] at hresp
        simp only [Except.map] at hresp
        exact Except.noConfusion hresp
    | ok gen =>
        rw [hgl] at hresp
        simp only [Except.map] at hresp
        rw [← Except.ok.inj hresp] at hmem
        simp only [List.map_append] at hmem
        rcases List.mem_append.mp hmem with hc | hg
        · rw [(dbPartition store syms).1, List.mem_filter, hstore] at hc
          simp at hc
        · obtain ⟨r, hr, hrs⟩ := List.mem_map.mp hg
          obtain ⟨t, _, hgen⟩ := generateLoop_ok_mem hgl hr
          have hts : t = s := by rw [← generateSignals_inr_symbol hgen, hrs]
          rw [hts, generateSignals_empty henv] at hgen
          exact Sum.noConfusion (Except.ok.inj hgen)

/-- Witness for C3's amended statement: a failing fetch yields the error
entry, the one-bar calendar-flagged batch aborts with the IndexError,
and the doubly-failing symbol A is absent from a concrete response. -/
theorem C3_batch_error_handling_witness :
    generateSignals abEnv noCal "A" =
      Except.ok (Sum.inl ("No data available for " ++ "A")) ∧
    analyzeMultipleStocks oneBarEnv flagCal ["C"] = Except.error () ∧
    "A" ∉ droppedResponse.stocks.map (fun r => r.symbol) :=
  ⟨(C3_batch_error_handling abEnv noCal ["A", "B"]).1 "A" rfl,
   (C3_batch_error_handling oneBarEnv flagCal ["C"]).2.2.2.1 "C" (by simp)
     (by with_unfolding_all rfl),
   (C3_batch_error_handling emptyEnv noCal ["A"]).2.2.2.2.2 emptyStore "A"
     droppedResponse rfl rfl (by with_unfolding_all rfl)⟩

end MojilaSignal
